import Mathlib

/-!
Shallow embedding of the SendToS3 backup script (`src/myfile.py`).

The script iterates over a dict `TECHNOLOGIES` of path-pattern entries,
uploads recently modified files to an S3 bucket, optionally deletes the
originals, classifies each technology's outcome, and dispatches the captured
log by email with a console fallback.  External collaborators (the S3
client, the filesystem glob/stat/delete, the mail transport, the Python
version and today's date) are modelled as an oracle `World`; the observable
behaviour (log lines, upload/delete/sleep actions, counters, console output,
uncaught exceptions) is computed by the Lean functions below, which follow
the Python control flow statement by statement.
-/

namespace SendToS3

/-- Log level of a `logger.info` / `logger.warning` / `logger.error` call. -/
inductive Level
  | info
  | warning
  | error
deriving DecidableEq, Repr

/-- A Python value as it can appear in a `TECHNOLOGIES` dict entry:
a string, an int, `None`, or a (possibly nested) list. -/
inductive PyVal
  | str (s : String)
  | int (n : Int)
  | pynone
  | list (xs : List PyVal)

/-- Uncaught Python exceptions that can escape the script. -/
inductive PyError
  | indexError
  | typeError
  | valueError
  | nameError
  | osError
deriving DecidableEq, Repr

/-- Outcome of `os.remove` on a file, as distinguished by the script:
success, `PermissionError` (caught), or any other `OSError` (uncaught). -/
inductive DeleteOutcome
  | ok
  | permissionError
  | otherError
deriving DecidableEq, Repr

/-- Abstract identity of a log message emitted by the script, with the
payload fields that the claims need.  One constructor per `logger.*` call
site of `src/myfile.py`. -/
inductive LogEvent
  | endpointConnectionError
  | forbiddenBucket
  | bucketNotFound
  | noTechnologies
  | startingBackup (dir : String) (field0 : PyVal)
  | incorrectValue (dir : String)
  | incorrectPath (dir : String) (field0 : PyVal)
  | noRegexFormat (dir : String) (field0 : PyVal)
  | noFilesFound (dir : String) (field0 : PyVal)
  | uploadFailed (fileName : String)
  | deletePermissionDenied (filePath : String)
  | noFilesInInterval (dir : String) (tn : PyVal)
  | uploadedAndDeleted (n : Nat) (dir : String) (tn : PyVal)
  | uploadedAndKept (n : Nat) (dir : String) (tn : PyVal)
  | uploadedButUndeletable (sent undel : Nat) (dir : String) (tn : PyVal)
  | someFailedWithDelete (sent failed undel : Nat) (tn : PyVal)
  | someFailedWithKeep (sent failed : Nat) (tn : PyVal)
  | totalTechnologies (n : Nat)
  | successfulTechnologies (n : Nat)
  | issuesInTechnologies (n : Nat)
  | badPythonVersion (major minor micro : Nat)
  | zeroFilesSent
  | envCreated
  | sendingEmail
  | mailDnsFailure
  | mailTimeout
  | mailAuthFailure
  | mailOtherFailure
  | emailFallback

/-- One captured log record: level plus message identity. -/
abbrev LogLine := Level × LogEvent

/-- Externally observable actions of the transfer loop: an invocation of
`s3_client.upload_file` (with its destination key and outcome), an
invocation of `os.remove`, and an invocation of `time.sleep`. -/
inductive Action
  | uploadAttempt (path : String) (key : String) (ok : Bool)
  | deleteAttempt (path : String) (outcome : DeleteOutcome)
  | sleep

/-- A calendar date (`datetime.date`): year, month, day. -/
structure Date where
  year : Nat
  month : Nat
  day : Nat
deriving DecidableEq, Repr

/-- Gregorian leap-year test, as in `datetime`. -/
def isLeap (y : Nat) : Bool :=
  y % 4 = 0 && (y % 100 ≠ 0 || y % 400 = 0)

/-- Days in all years before year `y` (proleptic Gregorian), as in
`datetime.date.toordinal`. -/
def daysBeforeYear (y : Nat) : Nat :=
  365 * (y - 1) + (y - 1) / 4 - (y - 1) / 100 + (y - 1) / 400

/-- Days in year `y` before month `m` (1-indexed), as in `datetime`. -/
def daysBeforeMonth (y m : Nat) : Nat :=
  [0, 31, 59, 90, 120, 151, 181, 212, 243, 273, 304, 334].getD (m - 1) 0
    + (if 2 < m && isLeap y then 1 else 0)

/-- Python `datetime.date.toordinal`: days since 0001-01-01, with that day = 1. -/
def Date.toOrdinal (d : Date) : Nat :=
  daysBeforeYear d.year + daysBeforeMonth d.year d.month + d.day

/-- The difference `(a - b).days` for two `datetime.date` values. -/
def dateSub (a b : Date) : Int :=
  (a.toOrdinal : Int) - (b.toOrdinal : Int)

/-- A file produced by the glob, together with the oracle outcomes of the
collaborator calls the script makes on it: `os.stat` modification date,
whether `s3_client.upload_file` succeeds, and the `os.remove` outcome. -/
structure FileInfo where
  path : String
  mtime : Date
  uploadOk : Bool
  deleteOutcome : DeleteOutcome

/-- Outcome of the `head_bucket` pre-flight call: success,
`EndpointConnectionError`, or `ClientError` with an HTTP error code. -/
inductive BucketCheck
  | ok
  | endpointError
  | clientError (code : Int)

/-- Outcome of the SMTP session in `send_email`: success, `socket.gaierror`,
`TimeoutError`, `SMTPAuthenticationError`, or any other exception. -/
inductive MailOutcome
  | ok
  | dnsError
  | timeout
  | authError
  | otherError
deriving DecidableEq, Repr

/-- The module-level configuration constants of the script. -/
structure Config where
  site : String
  hostname : String
  technologies : List (String × PyVal)
  daysToCheck : Int

/-- The oracle for every external collaborator of one run. -/
structure World where
  bucketCheck : BucketCheck
  glob : String → String → List FileInfo
  today : Date
  vMajor : Nat
  vMinor : Nat
  vMicro : Nat
  mailOutcome : MailOutcome

/- ## String primitives mirroring `os.path` (posixpath) -/

/-- Python `s.startswith('/')`. -/
def startsWithSlash (s : String) : Bool :=
  decide (s.data.head? = some '/')

/-- Python `s.endswith('/')`. -/
def endsWithSlash (s : String) : Bool :=
  decide (s.data.getLast? = some '/')

/-- One step of `posixpath.join`: how `os.path.join` combines an
accumulated path with the next component. -/
def joinTwo (a b : String) : String :=
  if startsWithSlash b then b
  else if decide (a = "") || endsWithSlash a then a ++ b
  else a ++ "/" ++ b

/-- Python `os.path.join a ps` on POSIX. -/
def posixJoin (a : String) (ps : List String) : String :=
  ps.foldl joinTwo a

/-- Characters of `os.path.basename p`: everything after the last slash. -/
def basenameChars (cs : List Char) : List Char :=
  (cs.reverse.takeWhile (fun c => c ≠ '/')).reverse

/-- Python `os.path.basename p` on POSIX. -/
def basename (p : String) : String :=
  String.mk (basenameChars p.data)

/-- Python `os.path.dirname p` on POSIX: the part before the last slash, with
trailing slashes stripped unless the result is all slashes. -/
def dirname (p : String) : String :=
  let cs := p.data
  let headChars := (cs.reverse.drop (cs.reverse.takeWhile (fun c => c ≠ '/')).length).reverse
  if headChars.all (fun c => c = '/') then String.mk headChars
  else String.mk ((headChars.reverse.dropWhile (fun c => c = '/')).reverse)

/-- Helper for `p.replace('\\ ', ' ')` on the character list: replace every
backslash-space pair by a space, left to right. -/
def replaceEscapedSpace : List Char → List Char
  | '\\' :: ' ' :: rest => ' ' :: replaceEscapedSpace rest
  | c :: rest => c :: replaceEscapedSpace rest
  | [] => []

/-- Python `path.replace('\\ ', ' ')`. -/
def replaceEscSpace (s : String) : String :=
  String.mk (replaceEscapedSpace s.data)

/- ## Python value operations used by the script -/

/-- Subscripting `v[0]` on a Python value: list and string indexing succeed on non-empty
values, raise `IndexError` when empty, and raise `TypeError` on `int` and
`None`, exactly as the `TECHNOLOGIES[path][0]` interpolation can. -/
def pyIndex0 : PyVal → Except PyError PyVal
  | .list [] => .error .indexError
  | .list (x :: _) => .ok x
  | .str s =>
      match s.data with
      | [] => .error .indexError
      | c :: _ => .ok (.str (String.mk [c]))
  | .int _ => .error .typeError
  | .pynone => .error .typeError

/-- Comparison `a <= v` for an int `a` and a Python value `v`: comparison with a
non-int raises `TypeError`, as in `(TODAY-last_modified_date).days <= days`. -/
def pyLeInt (a : Int) : PyVal → Except PyError Bool
  | .int b => .ok (decide (a ≤ b))
  | _ => .error .typeError

/-- Equality `v == t` for a Python value and a string literal: true only for an
equal string, false (without raising) otherwise. -/
def pyEqStr (v : PyVal) (t : String) : Bool :=
  match v with
  | .str s => decide (s = t)
  | _ => false

/-- Whether a Python value is a string. -/
def PyVal.isStr : PyVal → Bool
  | .str _ => true
  | _ => false

/- ## The transfer engine -/

/-- The substitution `days = TECHNOLOGIES[path][1]; if days is None: days = DAYS_TO_CHECK`. -/
def effectiveWindow (cfg : Config) (d : PyVal) : PyVal :=
  match d with
  | .pynone => .int cfg.daysToCheck
  | _ => d

/-- The destination key of one uploaded file:
`os.path.join(SITE, tech_name, HOSTNAME, str(year), str(month))` followed by
the f-string `'{destination_folder}/{file_name}'`, with year and month taken
from the file's own last-modified date. -/
def destinationKey (site techName hostname : String) (mtime : Date)
    (fileName : String) : String :=
  posixJoin site [techName, hostname, Nat.repr mtime.year, Nat.repr mtime.month]
    ++ "/" ++ fileName

/-- The per-file contribution of one iteration of the transfer loop:
counter increments, collaborator actions, log lines, and an uncaught
exception if the iteration raised one. -/
structure FileDelta where
  sentInc : Nat
  excInc : Nat
  undelInc : Nat
  actions : List Action
  log : List LogLine
  err : Option PyError

/-- The delta of a file iteration that did nothing. -/
def FileDelta.empty : FileDelta :=
  { sentInc := 0, excInc := 0, undelInc := 0, actions := [], log := [], err := none }

/-- One iteration of `for file_path in files_list` in `send_files`:
window check, upload attempt inside the broad `try` (where `os.path.join`
on a non-string `tech_name` also raises and is caught), conditional delete
with only `PermissionError` caught, and `time.sleep` at the end of the
upload-success branch. -/
def processFile (cfg : Config) (today : Date) (tn daysVal delOpt : PyVal)
    (f : FileInfo) : FileDelta :=
  match pyLeInt (dateSub today f.mtime) daysVal with
  | .error e => { FileDelta.empty with err := some e }
  | .ok false => FileDelta.empty
  | .ok true =>
      let fileName := basename f.path
      match tn with
      | .str tname =>
          let key := destinationKey cfg.site tname cfg.hostname f.mtime fileName
          if f.uploadOk then
            if pyEqStr delOpt "delete" then
              match f.deleteOutcome with
              | .ok =>
                  { sentInc := 1, excInc := 0, undelInc := 0,
                    actions := [.uploadAttempt f.path key true,
                                .deleteAttempt f.path .ok, .sleep],
                    log := [], err := none }
              | .permissionError =>
                  { sentInc := 1, excInc := 0, undelInc := 1,
                    actions := [.uploadAttempt f.path key true,
                                .deleteAttempt f.path .permissionError, .sleep],
                    log := [(.error, .deletePermissionDenied f.path)], err := none }
              | .otherError =>
                  { sentInc := 1, excInc := 0, undelInc := 0,
                    actions := [.uploadAttempt f.path key true,
                                .deleteAttempt f.path .otherError],
                    log := [], err := some .osError }
            else
              { sentInc := 1, excInc := 0, undelInc := 0,
                actions := [.uploadAttempt f.path key true, .sleep],
                log := [], err := none }
          else
            { sentInc := 0, excInc := 1, undelInc := 0,
              actions := [.uploadAttempt f.path key false],
              log := [(.error, .uploadFailed fileName)], err := none }
      | _ =>
          { sentInc := 0, excInc := 1, undelInc := 0, actions := [],
            log := [(.error, .uploadFailed fileName)], err := none }

/-- Running counters and observations of the per-technology file loop:
`files_sent`, `exception_files`, `undeleteable_files`. -/
structure FileLoopState where
  filesSent : Nat
  exceptionFiles : Nat
  undeleteableFiles : Nat
  actions : List Action
  log : List LogLine

/-- The file-loop state before the first file. -/
def FileLoopState.init : FileLoopState :=
  { filesSent := 0, exceptionFiles := 0, undeleteableFiles := 0, actions := [], log := [] }

/-- Fold one file's delta into the loop state. -/
def applyDelta (st : FileLoopState) (d : FileDelta) : FileLoopState :=
  { filesSent := st.filesSent + d.sentInc,
    exceptionFiles := st.exceptionFiles + d.excInc,
    undeleteableFiles := st.undeleteableFiles + d.undelInc,
    actions := st.actions ++ d.actions,
    log := st.log ++ d.log }

/-- The whole `for file_path in files_list` loop; an uncaught exception in
an iteration aborts the loop and propagates. -/
def runFiles (cfg : Config) (today : Date) (tn daysVal delOpt : PyVal)
    (st : FileLoopState) : List FileInfo → FileLoopState × Option PyError
  | [] => (st, none)
  | f :: fs =>
      let d := processFile cfg today tn daysVal delOpt f
      let st' := applyDelta st d
      match d.err with
      | some e => (st', some e)
      | none => runFiles cfg today tn daysVal delOpt st' fs

/-- The per-technology classification of `send_files` (the if/else ladder
on `exception_files`, `files_sent`, `undeleteable_files`): whether
`successfully_uploaded` is incremented, and the log lines emitted. -/
def classify (delOpt : PyVal) (dir : String) (tn : PyVal)
    (filesSent exceptionFiles undeleteableFiles : Nat) : Bool × List LogLine :=
  if exceptionFiles = 0 then
    if filesSent = 0 then
      (false, [(.warning, .noFilesInInterval dir tn)])
    else
      if undeleteableFiles = 0 then
        if pyEqStr delOpt "delete" then
          (true, [(.info, .uploadedAndDeleted filesSent dir tn)])
        else
          (true, [(.info, .uploadedAndKept filesSent dir tn)])
      else
        (false, [(.warning, .uploadedButUndeletable filesSent undeleteableFiles dir tn)])
  else
    if pyEqStr delOpt "delete" then
      (false, [(.warning, .someFailedWithDelete filesSent exceptionFiles undeleteableFiles tn)])
    else
      (false, [(.warning, .someFailedWithKeep filesSent exceptionFiles tn)])

/-- Accumulated state of `send_files`: `successfully_uploaded`, the log,
and the collaborator actions so far. -/
structure SendState where
  successfullyUploaded : Nat
  log : List LogLine
  actions : List Action

/-- The send state at the start of the technology loop. -/
def SendState.init : SendState :=
  { successfullyUploaded := 0, log := [], actions := [] }

/-- Append one log line to a send state. -/
def SendState.addLog (st : SendState) (l : LogLine) : SendState :=
  { st with log := st.log ++ [l] }

/-- One iteration of `for path in TECHNOLOGIES`, in source order: basename
and dirname of the path, the glob (`pathlib` raises `ValueError` on an
empty pattern), the `Starting backup` log line whose f-string indexes the
entry value, the four validation checks, the file loop, and the
classification. -/
def processTech (cfg : Config) (world : World) (today : Date)
    (st : SendState) (path : String) (value : PyVal) : SendState × Option PyError :=
  let filePattern := basename path
  let absolutePath := dirname (replaceEscSpace path)
  if filePattern = "" then (st, some .valueError)
  else
    let filesList := world.glob absolutePath filePattern
    match pyIndex0 value with
    | .error e => (st, some e)
    | .ok field0 =>
        let st := st.addLog (.info, .startingBackup absolutePath field0)
        match value with
        | .list [tn, daysRaw, delOpt] =>
            if ¬ startsWithSlash path then
              (st.addLog (.error, .incorrectPath absolutePath field0), none)
            else if filePattern = "" then
              (st.addLog (.error, .noRegexFormat absolutePath field0), none)
            else if filesList.isEmpty then
              (st.addLog (.warning, .noFilesFound absolutePath field0), none)
            else
              let daysVal := effectiveWindow cfg daysRaw
              let (fst, err) :=
                runFiles cfg today tn daysVal delOpt FileLoopState.init filesList
              let st' := { st with log := st.log ++ fst.log,
                                   actions := st.actions ++ fst.actions }
              match err with
              | some e => (st', some e)
              | none =>
                  let (inc, clines) :=
                    classify delOpt absolutePath tn
                      fst.filesSent fst.exceptionFiles fst.undeleteableFiles
                  ({ st' with
                     log := st'.log ++ clines,
                     successfullyUploaded :=
                       st'.successfullyUploaded + (if inc then 1 else 0) }, none)
        | _ => (st.addLog (.error, .incorrectValue absolutePath), none)

/-- The technology loop of `send_files`. -/
def runTechs (cfg : Config) (world : World) (today : Date)
    (st : SendState) : List (String × PyVal) → SendState × Option PyError
  | [] => (st, none)
  | (p, v) :: rest =>
      match processTech cfg world today st p v with
      | (st', none) => runTechs cfg world today st' rest
      | (st', some e) => (st', some e)

/-- The function `send_files(TODAY, logger)`: bucket pre-flight check, empty-table check
inside the success branch, technology loop, and run-end summary. -/
def send_files (cfg : Config) (world : World) (today : Date) :
    SendState × Option PyError :=
  match world.bucketCheck with
  | .endpointError =>
      ({ SendState.init with log := [(.error, .endpointConnectionError)] }, none)
  | .clientError code =>
      if code = 403 then
        ({ SendState.init with log := [(.error, .forbiddenBucket)] }, none)
      else if code = 404 then
        ({ SendState.init with log := [(.error, .bucketNotFound)] }, none)
      else
        (SendState.init, none)
  | .ok =>
      if cfg.technologies.isEmpty then
        ({ SendState.init with log := [(.error, .noTechnologies)] }, none)
      else
        match runTechs cfg world today SendState.init cfg.technologies with
        | (st, some e) => (st, some e)
        | (st, none) =>
            let t := cfg.technologies.length
            let s := st.successfullyUploaded
            ({ st with log := st.log ++
                [(.info, .totalTechnologies t), (.info, .successfulTechnologies s),
                 (if s < t then (.warning, .issuesInTechnologies (t - s))
                  else (.info, .issuesInTechnologies (t - s)))] }, none)

/-- The function `send_email`: the SMTP session outcome decides the returned success
flag and the error line logged; every exception is caught. -/
def send_email : MailOutcome → Bool × List LogLine
  | .ok => (true, [])
  | .dnsError => (false, [(.error, .mailDnsFailure)])
  | .timeout => (false, [(.error, .mailTimeout)])
  | .authError => (false, [(.error, .mailAuthFailure)])
  | .otherError => (false, [(.error, .mailOtherFailure)])

/-- What the script `print`s to stdout at the end of a run. -/
inductive Console
  | silent
  | confirmation
  | fullReport (log : List LogLine)

/-- Observable result of one `backup()` run. -/
structure BackupResult where
  log : List LogLine
  actions : List Action
  emailSent : Bool
  console : Console

/-- The function `backup()`: version check (on failure `TODAY` is never assigned, so the
later `send_email(TODAY, ...)` call raises `NameError`), `send_files`, and
report dispatch with console fallback. -/
def backup (cfg : Config) (world : World) : BackupResult × Option PyError :=
  if world.vMajor ≠ 3 || world.vMinor < 6 then
    ({ log := [(.error, .badPythonVersion world.vMajor world.vMinor world.vMicro),
               (.error, .zeroFilesSent), (.info, .sendingEmail)],
       actions := [], emailSent := false, console := .silent }, some .nameError)
  else
    let pre : List LogLine := [(.info, .envCreated)]
    match send_files cfg world world.today with
    | (st, some e) =>
        ({ log := pre ++ st.log, actions := st.actions,
           emailSent := false, console := .silent }, some e)
    | (st, none) =>
        let log2 := pre ++ st.log ++ [(.info, .sendingEmail)]
        match send_email world.mailOutcome with
        | (true, mlog) =>
            ({ log := log2 ++ mlog, actions := st.actions,
               emailSent := true, console := .confirmation }, none)
        | (false, mlog) =>
            let log3 := log2 ++ mlog ++ [(.error, .emailFallback)]
            ({ log := log3, actions := st.actions,
               emailSent := false, console := .fullReport log3 }, none)

/- ## Spec-side predicates used to state the claims -/

/-- Whether a file passes the window check `(TODAY-mtime).days <= days`
(false also when the comparison would raise). -/
def inWindowB (today : Date) (daysVal : PyVal) (f : FileInfo) : Bool :=
  match pyLeInt (dateSub today f.mtime) daysVal with
  | .ok b => b
  | .error _ => false

/-- Whether the `try` block around the upload raises for this file: the
file is in the window and either the key computation or the upload fails. -/
def uploadRaisedB (today : Date) (daysVal tn : PyVal) (f : FileInfo) : Bool :=
  inWindowB today daysVal f && (!tn.isStr || !f.uploadOk)

/-- Whether the upload attempt for this file returns success. -/
def uploadSucceededB (today : Date) (daysVal tn : PyVal) (f : FileInfo) : Bool :=
  inWindowB today daysVal f && tn.isStr && f.uploadOk

/-- Whether this file's delete is denied: its upload succeeded, the policy
is `delete`, and `os.remove` raises `PermissionError`. -/
def deleteDeniedB (today : Date) (daysVal tn delOpt : PyVal) (f : FileInfo) : Bool :=
  uploadSucceededB today daysVal tn f && pyEqStr delOpt "delete"
    && decide (f.deleteOutcome = .permissionError)

/-- Whether an action is a `time.sleep` call. -/
def Action.isSleep : Action → Bool
  | .sleep => true
  | _ => false

/-- Whether an action is an `upload_file` invocation (of any outcome). -/
def Action.isUploadAttempt : Action → Bool
  | .uploadAttempt _ _ _ => true
  | _ => false

/-- Whether an action is an `os.remove` invocation. -/
def Action.isDeleteAttempt : Action → Bool
  | .deleteAttempt _ _ => true
  | _ => false

/-- Whether an action is an `upload_file` invocation that succeeded. -/
def Action.isSuccessfulUpload : Action → Bool
  | .uploadAttempt _ _ ok => ok
  | _ => false

/-- Number of `time.sleep` pauses in an action trace. -/
def countSleeps (as : List Action) : Nat :=
  (as.filter Action.isSleep).length

/-- Number of completed `upload_file` attempts in an action trace. -/
def countUploadAttempts (as : List Action) : Nat :=
  (as.filter Action.isUploadAttempt).length

/- ## Concrete sample configurations and worlds -/

/-- A valid in-window file whose upload and delete both succeed. -/
def fileOkA : FileInfo :=
  { path := "/a/Ok.class", mtime := ⟨2023, 11, 2⟩, uploadOk := true, deleteOutcome := .ok }

/-- A valid in-window file whose upload raises. -/
def fileFailA : FileInfo :=
  { path := "/a/Fail.class", mtime := ⟨2023, 11, 2⟩, uploadOk := false, deleteOutcome := .ok }

/-- A small configuration with one well-formed technology entry. -/
def cfgA : Config :=
  { site := "s", hostname := "h",
    technologies := [("/a/*.class", PyVal.list [.str "java", .int 90, .str "delete"])],
    daysToCheck := 5 }

/-- A configuration with an empty technology table. -/
def cfgEmpty : Config :=
  { site := "s", hostname := "h", technologies := [], daysToCheck := 5 }

/-- The run date used by the concrete scenarios. -/
def todayA : Date := ⟨2023, 11, 8⟩

/-- A world where every collaborator succeeds. -/
def worldOkA : World :=
  { bucketCheck := .ok, glob := fun _ _ => [fileOkA], today := todayA,
    vMajor := 3, vMinor := 8, vMicro := 0, mailOutcome := .ok }

/-- A world whose bucket pre-flight check fails with HTTP 403. -/
def worldForbiddenA : World :=
  { worldOkA with bucketCheck := .clientError 403 }

/-- A world running under Python 2.7.18. -/
def worldOldPython : World :=
  { worldOkA with vMajor := 2, vMinor := 7, vMicro := 18 }

/-- A world where the bucket is unreachable and mail authentication fails. -/
def worldMailFailA : World :=
  { worldOkA with bucketCheck := .endpointError, mailOutcome := .authError }

/-- Well-formedness of a destination-key component: non-empty and neither
starting nor ending with a slash (so `os.path.join` inserts exactly one
separator and performs no absolute-path reset). -/
def goodComponent (s : String) : Prop :=
  s ≠ "" ∧ startsWithSlash s = false ∧ endsWithSlash s = false

instance (s : String) : Decidable (goodComponent s) := by
  unfold goodComponent
  infer_instance

/- ## Helper lemmas about the string primitives -/

theorem strData_append (s t : String) : (s ++ t).data = s.data ++ t.data := by
  cases s
  cases t
  rfl

theorem str_eq_empty_iff (s : String) : s = "" ↔ s.data = [] := by
  constructor
  · intro h
    rw [h]
  · intro h
    cases s with
    | mk d =>
        cases h
        rfl

theorem slash_append_data (a b : String) :
    (a ++ "/" ++ b).data = a.data ++ '/' :: b.data := by
  rw [strData_append, strData_append]
  simp [show ("/" : String).data = ['/'] from rfl]

theorem slash_append_ne_empty (a b : String) : a ++ "/" ++ b ≠ "" := by
  intro h
  have h2 := (str_eq_empty_iff _).mp h
  rw [slash_append_data] at h2
  simp at h2

theorem endsWithSlash_slash_append (a b : String) (hb : b ≠ "") :
    endsWithSlash (a ++ "/" ++ b) = endsWithSlash b := by
  have hb2 : b.data ≠ [] := fun h => hb ((str_eq_empty_iff b).mpr h)
  unfold endsWithSlash
  rw [slash_append_data]
  have h3 : a.data ++ '/' :: b.data = (a.data ++ ['/']) ++ b.data := by simp
  rw [h3, List.getLast?_append_of_ne_nil _ hb2]

theorem joinTwo_eq (a b : String) (ha : a ≠ "") (ha2 : endsWithSlash a = false)
    (hb : startsWithSlash b = false) : joinTwo a b = a ++ "/" ++ b := by
  unfold joinTwo
  rw [hb, ha2, decide_eq_false ha]
  simp

/- ## C7 and C10: destination-key computation -/

/-- C7: every successfully uploaded file is stored at the key
`site/technology/hostname/year/month/filename`, with year and month taken
from the file's own last-modified date (the run date does not appear in
`destinationKey` at all); the side conditions only say that the configured
components do not themselves contain a leading or trailing slash. -/
theorem c7_destination_key_shape (site tn host fn : String) (d : Date)
    (h1 : goodComponent site) (h2 : goodComponent tn) (h3 : goodComponent host)
    (h4 : goodComponent (Nat.repr d.year))
    (h5 : startsWithSlash (Nat.repr d.month) = false) :
    destinationKey site tn host d fn =
      site ++ "/" ++ tn ++ "/" ++ host ++ "/" ++ Nat.repr d.year ++ "/"
        ++ Nat.repr d.month ++ "/" ++ fn := by
  obtain ⟨ha1, ha2, ha3⟩ := h1
  obtain ⟨hb1, hb2, hb3⟩ := h2
  obtain ⟨hc1, hc2, hc3⟩ := h3
  obtain ⟨hd1, hd2, hd3⟩ := h4
  unfold destinationKey posixJoin
  simp only [List.foldl]
  rw [joinTwo_eq site tn ha1 ha3 hb2]
  rw [joinTwo_eq _ host (slash_append_ne_empty _ _)
    (by rw [endsWithSlash_slash_append _ _ hb1]; exact hb3) hc2]
  rw [joinTwo_eq _ (Nat.repr d.year) (slash_append_ne_empty _ _)
    (by rw [endsWithSlash_slash_append _ _ hc1]; exact hc3) hd2]
  rw [joinTwo_eq _ (Nat.repr d.month) (slash_append_ne_empty _ _)
    (by rw [endsWithSlash_slash_append _ _ hd1]; exact hd3) h5]

/-- Witness for C7: the claim's own concrete instance, site `s`, technology
`java`, hostname `h`, mtime 2023-11-02, filename `A.class`. -/
theorem c7_destination_key_shape_witness :
    destinationKey "s" "java" "h" ⟨2023, 11, 2⟩ "A.class" = "s/java/h/2023/11/A.class" := by
  have h := c7_destination_key_shape "s" "java" "h" "A.class" ⟨2023, 11, 2⟩
    (by decide) (by decide) (by decide) (by decide) (by decide)
  rw [h]
  rfl

/- ## C1: delete only after successful upload; failure bookkeeping -/

/-- C1: for every file processed by the transfer loop, an `os.remove`
attempt occurs only if the file's upload attempt returned success; the file
contributes to `exception_files` exactly when its upload `try` block
raised; and it contributes to `undeleteable_files` exactly when its upload
succeeded, the policy was `delete`, and the delete raised
`PermissionError` — so a failed delete is never counted as an upload
failure. -/
theorem c1_delete_only_after_successful_upload
    (cfg : Config) (today : Date) (tn daysVal delOpt : PyVal) (f : FileInfo) :
    ((processFile cfg today tn daysVal delOpt f).actions.any Action.isDeleteAttempt = true →
      (processFile cfg today tn daysVal delOpt f).actions.any Action.isSuccessfulUpload = true)
    ∧ (processFile cfg today tn daysVal delOpt f).excInc
        = (if uploadRaisedB today daysVal tn f then 1 else 0)
    ∧ (processFile cfg today tn daysVal delOpt f).undelInc
        = (if deleteDeniedB today daysVal tn delOpt f then 1 else 0) := by
  cases daysVal with
  | str s =>
      simp [processFile, pyLeInt, inWindowB, uploadRaisedB, uploadSucceededB,
        deleteDeniedB, FileDelta.empty]
  | pynone =>
      simp [processFile, pyLeInt, inWindowB, uploadRaisedB, uploadSucceededB,
        deleteDeniedB, FileDelta.empty]
  | list xs =>
      simp [processFile, pyLeInt, inWindowB, uploadRaisedB, uploadSucceededB,
        deleteDeniedB, FileDelta.empty]
  | int w =>
      cases hle : decide (dateSub today f.mtime ≤ w) with
      | false =>
          simp [processFile, pyLeInt, hle, inWindowB, uploadRaisedB, uploadSucceededB,
            deleteDeniedB, FileDelta.empty]
      | true =>
          cases tn with
          | int n =>
              simp [processFile, pyLeInt, hle, inWindowB, uploadRaisedB,
                uploadSucceededB, deleteDeniedB, PyVal.isStr]
          | pynone =>
              simp [processFile, pyLeInt, hle, inWindowB, uploadRaisedB,
                uploadSucceededB, deleteDeniedB, PyVal.isStr]
          | list xs =>
              simp [processFile, pyLeInt, hle, inWindowB, uploadRaisedB,
                uploadSucceededB, deleteDeniedB, PyVal.isStr]
          | str tname =>
              cases hup : f.uploadOk with
              | false =>
                  simp [processFile, pyLeInt, hle, hup, inWindowB, uploadRaisedB,
                    uploadSucceededB, deleteDeniedB, PyVal.isStr,
                    Action.isDeleteAttempt, Action.isSuccessfulUpload]
              | true =>
                  cases hde : pyEqStr delOpt "delete" with
                  | false =>
                      simp [processFile, pyLeInt, hle, hup, hde, inWindowB,
                        uploadRaisedB, uploadSucceededB, deleteDeniedB, PyVal.isStr,
                        Action.isDeleteAttempt, Action.isSuccessfulUpload]
                  | true =>
                      cases hdo : f.deleteOutcome <;>
                        simp [processFile, pyLeInt, hle, hup, hde, hdo, inWindowB,
                          uploadRaisedB, uploadSucceededB, deleteDeniedB, PyVal.isStr,
                          Action.isDeleteAttempt, Action.isSuccessfulUpload]

/-- Witness for C1: a concrete in-window file whose upload succeeds and
whose delete raises `PermissionError` contributes to `undeleteable_files`. -/
theorem c1_delete_only_after_successful_upload_witness :
    (processFile cfgA todayA (.str "java") (.int 90) (.str "delete")
      { fileOkA with deleteOutcome := .permissionError }).undelInc = 1 := by
  have h := c1_delete_only_after_successful_upload cfgA todayA (.str "java") (.int 90)
    (.str "delete") { fileOkA with deleteOutcome := .permissionError }
  rw [h.2.2]
  decide

/- ## C3: placement of the inter-upload pause -/

/-- C3 counterexample: a concrete in-window file whose upload raises
completes its transfer attempt with no `time.sleep` pause, so the number
of pauses differs from the number of completed transfer attempts. -/
theorem c3_counterexample_no_sleep_on_failure :
    countSleeps (processFile cfgA todayA (.str "java") (.int 90) (.str "delete")
        fileFailA).actions = 0
    ∧ countUploadAttempts (processFile cfgA todayA (.str "java") (.int 90) (.str "delete")
        fileFailA).actions = 1
    ∧ countSleeps (processFile cfgA todayA (.str "java") (.int 90) (.str "delete")
          fileFailA).actions
        ≠ countUploadAttempts (processFile cfgA todayA (.str "java") (.int 90)
          (.str "delete") fileFailA).actions := by
  refine ⟨rfl, rfl, ?_⟩
  decide

/-- C3 as amended: the pause executes only after a successful upload (the
failed-upload branch proceeds to the next file without pausing), so for a
file iteration that raises no uncaught error the number of pauses equals
that file's contribution to `files_sent`, not its number of completed
transfer attempts. -/
theorem c3_amended_sleep_only_on_success
    (cfg : Config) (today : Date) (tn daysVal delOpt : PyVal) (f : FileInfo)
    (h : (processFile cfg today tn daysVal delOpt f).err = none) :
    countSleeps (processFile cfg today tn daysVal delOpt f).actions
      = (processFile cfg today tn daysVal delOpt f).sentInc := by
  cases daysVal with
  | str s => simp [processFile, pyLeInt, countSleeps, FileDelta.empty]
  | pynone => simp [processFile, pyLeInt, countSleeps, FileDelta.empty]
  | list xs => simp [processFile, pyLeInt, countSleeps, FileDelta.empty]
  | int w =>
      cases hle : decide (dateSub today f.mtime ≤ w) with
      | false => simp [processFile, pyLeInt, hle, countSleeps, FileDelta.empty]
      | true =>
          cases tn with
          | int n => simp [processFile, pyLeInt, hle, countSleeps, Action.isSleep]
          | pynone => simp [processFile, pyLeInt, hle, countSleeps, Action.isSleep]
          | list xs => simp [processFile, pyLeInt, hle, countSleeps, Action.isSleep]
          | str tname =>
              cases hup : f.uploadOk with
              | false =>
                  simp [processFile, pyLeInt, hle, hup, countSleeps, Action.isSleep]
              | true =>
                  cases hde : pyEqStr delOpt "delete" with
                  | false =>
                      simp [processFile, pyLeInt, hle, hup, hde, countSleeps,
                        Action.isSleep]
                  | true =>
                      cases hdo : f.deleteOutcome with
                      | ok =>
                          simp [processFile, pyLeInt, hle, hup, hde, hdo, countSleeps,
                            Action.isSleep]
                      | permissionError =>
                          simp [processFile, pyLeInt, hle, hup, hde, hdo, countSleeps,
                            Action.isSleep]
                      | otherError =>
                          simp [processFile, pyLeInt, hle, hup, hde, hdo] at h

/-- Witness for C3's amended statement: a concrete successful upload is
followed by exactly one pause. -/
theorem c3_amended_sleep_only_on_success_witness :
    countSleeps (processFile cfgA todayA (.str "java") (.int 90) (.str "delete")
        fileOkA).actions
      = (processFile cfgA todayA (.str "java") (.int 90) (.str "delete")
        fileOkA).sentInc :=
  c3_amended_sleep_only_on_success cfgA todayA (.str "java") (.int 90) (.str "delete")
    fileOkA rfl

/- ## C8: age filtering -/

/-- C8: a matched file whose age `(run_date - mtime).days` exceeds the
effective window — the entry's retention field if it is not `None`,
otherwise the configured default — is skipped entirely: its loop iteration
performs no upload attempt, no action at all, and changes no counter. -/
theorem c8_age_filter (cfg : Config) (today : Date) (tn delOpt daysRaw : PyVal)
    (f : FileInfo) (w : Int)
    (hw : effectiveWindow cfg daysRaw = PyVal.int w)
    (hage : w < dateSub today f.mtime) :
    processFile cfg today tn (effectiveWindow cfg daysRaw) delOpt f = FileDelta.empty := by
  rw [hw]
  have hle : decide (dateSub today f.mtime ≤ w) = false :=
    decide_eq_false (not_le.mpr hage)
  simp [processFile, pyLeInt, hle]

/-- Witness for C8: with retention field `None` the effective window is the
default (5 days); a file 6 days old is skipped. -/
theorem c8_age_filter_witness :
    processFile cfgA todayA (.str "java") (effectiveWindow cfgA .pynone)
      (.str "delete") fileOkA = FileDelta.empty :=
  c8_age_filter cfgA todayA (.str "java") (.str "delete") .pynone fileOkA 5 rfl
    (by decide)

/- ## C4: per-technology classification -/

/-- C4: `successfully_uploaded` is incremented for a technology exactly when
`exception_files == 0`, `undeleteable_files == 0` and `files_sent > 0`; and
whenever `exception_files > 0` the technology is not counted as fully
successful — regardless of how many uploads succeeded — and a warning line
is logged. -/
theorem c4_classification (delOpt : PyVal) (dir : String) (tn : PyVal)
    (s e u : Nat) :
    ((classify delOpt dir tn s e u).1 = true ↔ (e = 0 ∧ u = 0 ∧ 0 < s))
    ∧ (0 < e →
        (classify delOpt dir tn s e u).1 = false
        ∧ ∃ ev, (Level.warning, ev) ∈ (classify delOpt dir tn s e u).2) := by
  by_cases he : e = 0 <;> by_cases hs : s = 0 <;> by_cases hu : u = 0 <;>
    by_cases hde : pyEqStr delOpt "delete" <;>
      simp [classify, he, hs, hu, hde, Nat.pos_iff_ne_zero]

/-- Witness for C4: with 2 uploads, 1 upload failure and 0 delete failures
the technology is not counted as fully successful and a warning is logged. -/
theorem c4_classification_witness :
    (classify (.str "delete") "/a" (.str "java") 2 1 0).1 = false
    ∧ ∃ ev, (Level.warning, ev) ∈ (classify (.str "delete") "/a" (.str "java") 2 1 0).2 :=
  (c4_classification (.str "delete") "/a" (.str "java") 2 1 0).2 (by decide)

/- ## C5: empty technology table versus the bucket pre-flight check -/

/-- C5 counterexample: with an empty technology table and a bucket
pre-flight check failing with HTTP 403, the run logs only the
forbidden-bucket error — the empty-table error is never reported, so it is
not independent of the bucket check's outcome. -/
theorem c5_counterexample_bucket_failure_masks_empty_table :
    (send_files cfgEmpty worldForbiddenA todayA).1.log = [(.error, .forbiddenBucket)]
    ∧ (Level.error, LogEvent.noTechnologies)
        ∉ (send_files cfgEmpty worldForbiddenA todayA).1.log := by
  constructor
  · rfl
  · intro hmem
    rw [show (send_files cfgEmpty worldForbiddenA todayA).1.log
        = [(.error, .forbiddenBucket)] from rfl] at hmem
    simp at hmem

/-- C5 as amended: if the technology table is empty, no per-technology
processing ever occurs; when the bucket pre-flight check succeeds the run
aborts with exactly the empty-table error, and when the pre-flight check
fails the empty-table error is not reported at all (only the bucket
error is). -/
theorem c5_amended_empty_table (cfg : Config) (world : World) (today : Date)
    (h : cfg.technologies = []) :
    (world.bucketCheck = .ok →
        (send_files cfg world today).1.log = [(.error, .noTechnologies)]
        ∧ (send_files cfg world today).1.actions = []
        ∧ (send_files cfg world today).2 = none)
    ∧ (world.bucketCheck ≠ .ok →
        (Level.error, LogEvent.noTechnologies) ∉ (send_files cfg world today).1.log
        ∧ (send_files cfg world today).1.actions = []) := by
  constructor
  · intro hb
    simp [send_files, hb, h, SendState.init]
  · intro hb
    cases hcb : world.bucketCheck with
    | ok => exact absurd hcb hb
    | endpointError => simp [send_files, hcb, SendState.init]
    | clientError code =>
        by_cases h4 : code = 403
        · simp [send_files, hcb, h4, SendState.init]
        · by_cases h5 : code = 404
          · simp [send_files, hcb, h4, h5, SendState.init]
          · simp [send_files, hcb, h4, h5, SendState.init]

/-- Witness for C5's amended statement: empty table plus a successful
bucket check yields exactly the empty-table error and no actions. -/
theorem c5_amended_empty_table_witness :
    (send_files cfgEmpty worldOkA todayA).1.log = [(.error, .noTechnologies)]
    ∧ (send_files cfgEmpty worldOkA todayA).1.actions = []
    ∧ (send_files cfgEmpty worldOkA todayA).2 = none :=
  (c5_amended_empty_table cfgEmpty worldOkA todayA rfl).1 rfl

/- ## C6: malformed technology entries -/

/-- C6 at its failing input: a technology entry whose value is the empty
list makes the run raise `IndexError` while interpolating
`TECHNOLOGIES[path][0]` into the `Starting backup` log line — before the
3-field validation — so the entry is not skipped and no
configuration-error line is logged. -/
theorem c6_empty_entry_crashes :
    processTech cfgA worldOkA todayA SendState.init "/a/*.class" (PyVal.list [])
      = (SendState.init, some PyError.indexError) := rfl

/- ## C2: abnormal termination paths -/

/-- C2 at its failing input: under a failing Python-version check (version
2.7.18) the run does not complete — `TODAY` is never assigned, so the
`send_email(TODAY, ...)` call raises `NameError` and nothing is printed to
the console. -/
theorem c2_version_check_crashes :
    (backup cfgA worldOldPython).2 = some PyError.nameError
    ∧ (backup cfgA worldOldPython).1.console = Console.silent :=
  ⟨rfl, rfl⟩

/- ## C9: report delivery fallback -/

/-- C9: for every run that completes, if mail dispatch fails (for any
cause) the dispatch-success flag is false and the full captured report
text is printed to the console; if dispatch succeeds the flag is true and
only the short confirmation line is printed. -/
theorem c9_report_fallback (cfg : Config) (world : World)
    (h : (backup cfg world).2 = none) :
    (world.mailOutcome = .ok →
        (backup cfg world).1.emailSent = true
        ∧ (backup cfg world).1.console = .confirmation)
    ∧ (world.mailOutcome ≠ .ok →
        (backup cfg world).1.emailSent = false
        ∧ (backup cfg world).1.console = .fullReport (backup cfg world).1.log) := by
  unfold backup at h ⊢
  cases hv : (decide ¬world.vMajor = 3 || decide (world.vMinor < 6)) with
  | true =>
      rw [hv] at h
      simp at h
  | false =>
      rcases hsf : send_files cfg world world.today with ⟨st, err⟩
      rw [hv, hsf] at h
      cases err with
      | some e => simp at h
      | none =>
          cases hm : world.mailOutcome <;> simp [send_email]

/-- Witness for C9: a run whose bucket is unreachable but which completes,
with mail authentication failing, prints the full report and reports a
false dispatch flag. -/
theorem c9_report_fallback_witness :
    (backup cfgA worldMailFailA).1.emailSent = false
    ∧ (backup cfgA worldMailFailA).1.console
        = Console.fullReport (backup cfgA worldMailFailA).1.log :=
  (c9_report_fallback cfgA worldMailFailA rfl).2 (by decide)

/-- C10: the year and month components of the destination key are rendered
as unpadded decimal numbers of the file's modification date: a file last
modified on 2023-03-05 is stored at `.../2023/3/...`, not `.../2023/03/...`. -/
theorem c10_month_unpadded :
    destinationKey "s" "java" "h" ⟨2023, 3, 5⟩ "A.class" = "s/java/h/2023/3/A.class"
      ∧ destinationKey "s" "java" "h" ⟨2023, 3, 5⟩ "A.class" ≠ "s/java/h/2023/03/A.class" := by
  constructor
  · rfl
  · decide

end SendToS3
